import Mathlib

/-!
Verification development for the SUPT-Dashboard repository.

The core under scrutiny is the Sentinel Resonance Forecasting Engine
(src/models.py, src/utils.py, src/data_fetch.py) and the two
`compute_sunwolf` variants (src/core_sunwolf.py,
src/supt_dashboard/dashboard_v2.py).

Modelling conventions:
- Python floats are modelled as exact rationals (ℚ); the one place where a
  transcendental function is computed by the core itself (`np.log` in the
  Lyapunov line, models.py:82) is modelled over ℝ with `Real.log`.
- External libraries (scipy `odeint`, `butter`/`filtfilt`, `find_peaks`
  with prominence, astropy ephemeris lookups and angular separations,
  numpy `sin`/`exp`, the network-fetch payloads in data_fetch.py and the
  wall clock) are modelled as explicit function/data parameters collected
  in the `Externals` structure; an `Option` result models a Python call
  that may raise.  A raised exception that no enclosing `try` catches is
  modelled by the whole function returning `none`.
- `models.py` calls `get_body`, `low_pass_filter`, `check_critical_triplet`,
  `find_peaks`, `datetime` and `calibrate_resonance` without importing
  them; the first five exist in the repository or in its third-party
  dependencies and are bound here as intended.  `calibrate_resonance`,
  `resonance_fit` and `get_laic_tec_factor` exist nowhere in the
  repository and are modelled from the spec (see their doc comments).
-/

/-- Structurally recursive model of a Python `for`-loop that builds a list
and lets an uncaught exception escape: the loop fails (`none`) as soon as
one element fails. -/
def mapOpt (f : α → Option β) : List α → Option (List β)
  | [] => some []
  | a :: l =>
    match f a with
    | none => none
    | some b =>
      match mapOpt f l with
      | none => none
      | some r => some (b :: r)

/-- `np.mean` of a list (empty case never reached by the claims below). -/
def np_mean (l : List ℚ) : ℚ := l.sum / l.length

/-- `max` of a list with a default head (models `np.max` on the nonempty
lists it is applied to). -/
def np_maxD (l : List ℚ) : ℚ := l.foldl max (l.headD 0)

/-- `np.cumsum`, running-prefix sums. -/
def cumsum_go (acc : ℚ) : List ℚ → List ℚ
  | [] => []
  | a :: l => (acc + a) :: cumsum_go (acc + a) l

/-- `np.cumsum` of a list. -/
def cumsum (l : List ℚ) : List ℚ := cumsum_go 0 l

/-- `np.linspace a b n`: `n` evenly spaced samples over `[a, b]`,
inclusive of both endpoints (a single sample is `a`). -/
def linspace (a b : ℚ) (n : ℕ) : List ℚ :=
  (List.range n).map (fun i => if n ≤ 1 then a else a + (b - a) * i / (n - 1))

/-- Elementwise product of two equally long series (numpy broadcasting of
`*` over arrays). -/
def zipMul (x y : List ℚ) : List ℚ := List.zipWith (· * ·) x y

/-- Componentwise difference of 3-vectors (`body_pos - earth_pos`). -/
def psub (a b : ℚ × ℚ × ℚ) : ℚ × ℚ × ℚ := (a.1 - b.1, a.2.1 - b.2.1, a.2.2 - b.2.2)

/-- The impure collaborators of the core pipeline, fixed for one run:
ephemeris lookups (astropy), vector norm and angular separation (numpy /
astropy), the ODE integrator (scipy `odeint`), the zero-phase low-pass
filter (scipy `butter`+`filtfilt`), prominence-based peak finding (scipy
`find_peaks(.., prominence=0.5)`), numpy `sin`/`exp`, the wall clock, the
already-fetched NOAA/SWPC payloads of data_fetch.py (`none` = the fetch
failed / no data), the raw TEC amplitude and the nonlinear least-squares
fitter of the spec-modelled Resonance Calibrator. -/
structure Externals where
  lookup : String → String → ℚ → Option (ℚ × ℚ × ℚ)
  lookupSky : String → String → ℚ → Option (ℚ × ℚ × ℚ)
  norm : ℚ × ℚ × ℚ → ℚ
  separation : (ℚ × ℚ × ℚ) → (ℚ × ℚ × ℚ) → ℚ
  integrate : ((ℚ × ℚ) → ℚ → (ℚ × ℚ)) → (ℚ × ℚ) → List ℚ → List (ℚ × ℚ)
  lpf : List ℚ → List ℚ
  find_peaks_prom : List ℚ → ℚ → List ℕ
  sinF : ℚ → ℚ
  expF : ℚ → ℚ
  now : String
  goesData : Option (List ℚ × ℚ)
  windSpeeds : Option (List ℚ)
  kpLatest : Option ℚ
  flareFluxes : Option (List ℚ)
  tecRaw : String → ℚ
  nls_fit : List (ℚ × ℚ) → Option (ℚ × ℚ)

/-- Body masses hard-coded in `compute_tidal_factor` (models.py:22-31);
`none` is the `else: continue` branch for unrecognized bodies. -/
def bodyMass (b : String) : Option ℚ :=
  if b = "moon" then some 7.342e22
  else if b = "mars" then some 6.417e23
  else if b = "saturn" then some 5.683e26
  else if b = "neptune" then some 1.024e26
  else none

/-- Gravitational constant literal of models.py:32. -/
def Gconst : ℚ := 6.67430e-11

/-- Earth radius literal of models.py:33 (metres). -/
def R_earth : ℚ := 6371e3

/-- One body's term of the loop body of `compute_tidal_factor`
(models.py:19-35): look the body up (an uncaught failure aborts the run),
take the Earth distance, and add `2·G·M·R_earth/d³` if the body is
recognized, nothing (`0`) otherwise.  Distances are taken in SI units;
astropy's unit bookkeeping is external. -/
def tidal_term (ext : Externals) (earth : ℚ × ℚ × ℚ) (sd : String) (day : ℚ)
    (b : String) : Option ℚ :=
  match ext.lookup b sd day with
  | none => none
  | some pos =>
    let d := ext.norm (psub pos earth)
    match bodyMass b with
    | some M => some (2 * Gconst * M * R_earth / d ^ 3)
    | none => some 0

/-- The summed tidal acceleration at one sample time
(models.py:16-36): Earth lookup, then the per-body loop. -/
def tidal_sum_at (ext : Externals) (sd : String) (bodies : List String)
    (day : ℚ) : Option ℚ :=
  match ext.lookup "earth" sd day with
  | none => none
  | some earth =>
    match mapOpt (tidal_term ext earth sd day) bodies with
    | none => none
    | some terms => some terms.sum

/-- Default body list of `compute_tidal_factor` (models.py:13). -/
def defaultBodies : List String := ["moon", "mars", "saturn", "neptune"]

/-- `compute_tidal_factor` (models.py:13-38): per-sample sums, then
`tidal_values / 1e-6` if `np.max(tidal_values) > 0`, else
`np.ones(len(t_days))`.  `np.max` of an empty array raises (`none`). -/
def compute_tidal_factor (ext : Externals) (t_days : List ℚ) (sd : String)
    (bodies : List String) : Option (List ℚ) :=
  match mapOpt (tidal_sum_at ext sd bodies) t_days with
  | none => none
  | some vals =>
    match vals.max? with
    | none => none
    | some m =>
      some (if 0 < m then vals.map (fun v => v / 1e-6)
            else List.replicate t_days.length 1)

/-- Default planet list of `detect_alignments` (models.py:40). -/
def defaultPlanets : List String := ["mars", "jupiter", "saturn", "uranus"]

/-- Default aspect angles of `detect_alignments` (models.py:40). -/
def defaultAspects : List ℚ := [0, 60, 90, 120]

/-- The boost one planet contributes at one sample
(models.py:46-51): +0.2 for every aspect within 1 degree. -/
def planet_boost (ext : Externals) (base : ℚ × ℚ × ℚ) (sd : String) (day : ℚ)
    (aspects : List ℚ) (p : String) : Option ℚ :=
  match ext.lookupSky p sd day with
  | none => none
  | some pos =>
    let sep := ext.separation base pos
    some ((aspects.map (fun a => if |sep - a| < 1 then (0.2 : ℚ) else 0)).sum)

/-- `detect_alignments` (models.py:40-53): per sample, boost starts at 1.0
and accumulates +0.2 per matching (planet, aspect) pair; any failed lookup
aborts the whole run (there is no `try` in models.py). -/
def detect_alignments (ext : Externals) (t_days : List ℚ) (sd : String)
    (base_body : String) (planets : List String) (aspects : List ℚ) :
    Option (List ℚ) :=
  mapOpt (fun day =>
    match ext.lookupSky base_body sd day with
    | none => none
    | some base =>
      match mapOpt (planet_boost ext base sd day aspects) planets with
      | none => none
      | some boosts => some (1 + boosts.sum)) t_days

/-- `duffing_oscillator` (models.py:7-11).  `np.sin` is supplied as the
external function `sinF`. -/
def duffing_oscillator (sinF : ℚ → ℚ) (y : ℚ × ℚ) (t : ℚ)
    (gamma alpha beta tau omega folded_proxy : ℚ) : ℚ × ℚ :=
  (y.2, -gamma * y.2 - alpha * y.1 - beta * y.1 ^ 3 - 0.01 * y.2 ^ 2
        + tau * sinF (omega * t) * folded_proxy)

/-- Componentwise sum of oscillator states. -/
def padd (a b : ℚ × ℚ) : ℚ × ℚ := (a.1 + b.1, a.2 + b.2)

/-- Scalar multiple of an oscillator state. -/
def psmul (c : ℚ) (a : ℚ × ℚ) : ℚ × ℚ := (c * a.1, c * a.2)

/-- One classical 4th-order Runge-Kutta step of size `h` from `(y, t)`. -/
def rk4_step (f : (ℚ × ℚ) → ℚ → (ℚ × ℚ)) (y : ℚ × ℚ) (t h : ℚ) : ℚ × ℚ :=
  let k1 := f y t
  let k2 := f (padd y (psmul (h / 2) k1)) (t + h / 2)
  let k3 := f (padd y (psmul (h / 2) k2)) (t + h / 2)
  let k4 := f (padd y (psmul h k3)) (t + h)
  padd y (psmul (h / 6) (padd k1 (padd (psmul 2 k2) (padd (psmul 2 k3) k4))))

/-- Remaining states of the grid after the first (spec section 4.1 fixes a
fixed-step 4th-order Runge-Kutta method as the accuracy contract for the
external `scipy.integrate.odeint` call of models.py:63). -/
def odeint_go (f : (ℚ × ℚ) → ℚ → (ℚ × ℚ)) (y : ℚ × ℚ) (t : ℚ) :
    List ℚ → List (ℚ × ℚ)
  | [] => []
  | t2 :: rest =>
    let y2 := rk4_step f y t (t2 - t)
    y2 :: odeint_go f y2 t2 rest

/-- Fixed-step RK4 model of `odeint(f, y0, t)`: the state at every grid
point, starting with `y0` at the first. -/
def odeint_rk4 (f : (ℚ × ℚ) → ℚ → (ℚ × ℚ)) (y0 : ℚ × ℚ) :
    List ℚ → List (ℚ × ℚ)
  | [] => []
  | t0 :: rest => y0 :: odeint_go f y0 t0 rest

/-- A historical labeled event (spec section 3). -/
structure HistoricalEvent where
  proxy : ℚ
  outcome : ℚ
  eventCount : ℕ
  domain : String
  distance : ℚ
  auxPower : ℚ

/-- Modelled from the spec: `calibrate_resonance` is called at
models.py:67 but defined nowhere in the repository.  Spec section 4.4:
filter events by domain if given; with fewer than 2 events return the
neutral model (1.0, 0.0); otherwise fit `a·e^(b·x)` by nonlinear least
squares (the external fitter `nls_fit`), falling back to the neutral model
when the fit fails. -/
def calibrate_resonance (ext : Externals) (events : List HistoricalEvent)
    (domain : Option String) : ℚ × ℚ :=
  let evs : List HistoricalEvent := match domain with
    | some d => events.filter (fun e => e.domain == d)
    | none => events
  if evs.length < 2 then (1, 0)
  else
    match ext.nls_fit (evs.map (fun e => (e.proxy, e.outcome))) with
    | some ab => ab
    | none => (1, 0)

/-- Modelled from the spec: `resonance_fit` is called at models.py:68 but
defined nowhere in the repository.  Spec section 4.4: the amplification is
`a·e^(b·foldedProxy)` (numpy `exp` is the external `expF`). -/
def resonance_fit (ext : Externals) (x a b : ℚ) : ℚ := a * ext.expF (b * x)

/-- `get_goes_flux_factor` (data_fetch.py:7-42), parameterized by the
already-fetched 0.1-0.8 nm flux list and the external
`np.polyfit`/`np.log10` slope; `none` models the case where both feeds
failed (empty `flux_data`, early return 1.0). -/
def get_goes_flux_factor : Option (List ℚ × ℚ) → ℚ
  | none => 1
  | some (fluxes, slope) =>
    let boost : ℚ :=
      if 0.01 < slope ∨ 1e-5 < np_maxD fluxes then 1 + 0.5 * max 0 (slope / 0.01)
      else 1
    max 1 (min 2 boost)

/-- `get_solar_wind_factor` (data_fetch.py:44-62); `none` models the
caught fetch exception (return 1.0). -/
def get_solar_wind_factor : Option (List ℚ) → ℚ
  | none => 1
  | some speeds =>
    if speeds.isEmpty then 1
    else
      let avg := np_mean (speeds.drop (speeds.length - 12))
      let boost : ℚ := if 500 < avg then 1 + (avg - 500) / 500 else 1
      max 1 (min 2 boost)

/-- `get_geomag_storm_factor` (data_fetch.py:64-79); `none` models the
caught fetch exception.  `int(latest_kp - 4)` truncates, and on `kp ≥ 5`
the argument is ≥ 1 so truncation is `Int.floor`. -/
def get_geomag_storm_factor : Option ℚ → ℚ
  | none => 1
  | some kp =>
    let g : ℤ := if 5 ≤ kp then min 5 (Int.floor (kp - 4)) else 0
    max 1 (min 2 (1 + (g : ℚ) * 0.2))

/-- `get_solar_flare_factor` (data_fetch.py:81-101); `none` models the
caught fetch exception. -/
def get_solar_flare_factor : Option (List ℚ) → ℚ
  | none => 1
  | some fluxes =>
    if fluxes.isEmpty then 1
    else
      let m := np_maxD fluxes
      if 1e-4 < m then 2 else if 1e-5 < m then 1.5 else if 1e-6 < m then 1.2 else 1

/-- Modelled from the spec: `get_laic_tec_factor` is called at
models.py:77 but defined nowhere in the repository.  Spec section 4.3
requires every Indicator Aggregator factor to be a scalar clamped to
[1.0, 2.0] (raw amplitude supplied externally). -/
def get_laic_tec_factor (ext : Externals) (ionex : String) : ℚ :=
  max 1 (min 2 (ext.tecRaw ionex))

/-- The TEC term of models.py:77: the factor when `ionex_text` is present,
`1.0` when it is absent. -/
def laic_term (ext : Externals) (ionex_text : Option String) : ℚ :=
  match ionex_text with
  | some s => get_laic_tec_factor ext s
  | none => 1

/-- The single scalar models.py:70-72 multiplies into the signal:
`1 + geomag_factor + schumann_factor`, with
`geomag_factor = kp/9 if kp > 0 else 1` and
`schumann_factor = max(1, min(2, power/20))`. -/
def geomag_schumann_mult (geomag_kp schumann_power : ℚ) : ℚ :=
  let geomag_factor := if 0 < geomag_kp then geomag_kp / 9 else 1
  let schumann_factor := max 1 (min 2 (schumann_power / 20))
  1 + geomag_factor + schumann_factor

/-- `scipy.signal.find_peaks` without options (utils.py:11): indices of
strict interior local maxima, in increasing order. -/
def find_peaks (x : List ℚ) : List ℕ :=
  (List.range x.length).filter (fun i =>
    decide (0 < i) && decide (i + 1 < x.length) &&
    decide (x.getD (i - 1) 0 < x.getD i 0) &&
    decide (x.getD (i + 1) 0 < x.getD i 0))

/-- `check_critical_triplet` (utils.py:10-16): take the three earliest
peaks when at least three exist and compare `max - min` with the window. -/
def check_critical_triplet (signal : List ℚ) (time_int : ℕ) : Bool :=
  match find_peaks signal with
  | a :: b :: c :: _ => decide (max a (max b c) - min a (min b c) ≤ time_int)
  | _ => false

/-- A synthetic series of length `n` whose strict local maxima are exactly
the listed interior indices (value 1 there, 0 elsewhere). -/
def mkSignal (n : ℕ) (ps : List ℕ) : List ℚ :=
  (List.range n).map (fun i => if i ∈ ps then (1 : ℚ) else 0)

/-- `np.diff` over ℝ: successive differences `x[i+1] - x[i]`. -/
noncomputable def np_diffR (xs : List ℝ) : List ℝ := List.zipWith (fun a b => a - b) xs.tail xs

/-- `np.mean` over ℝ. -/
noncomputable def meanR (l : List ℝ) : ℝ := l.sum / l.length

/-- The Lyapunov line exactly as models.py:82 computes it:
`np.mean(np.diff(np.log(np.abs(np.diff(forecast) + 1e-10))))` — the
epsilon is added to the FIRST difference, then abs, then log, then a
second difference, then the mean. -/
noncomputable def lyap (forecast : List ℝ) : ℝ :=
  meanR (np_diffR ((np_diffR forecast).map (fun d => Real.log |d + 1e-10|)))

/-- The formula the spec claims for the Lyapunov estimate (spec section
4.6 step 9): `mean(log(|Δ(Δforecast)| + ε))` — the epsilon added to the
absolute second difference inside the logarithm, and the mean taken of
those logarithms.  Stated only to be compared against `lyap`. -/
noncomputable def lyap_claimed (forecast : List ℝ) : ℝ :=
  meanR ((np_diffR (np_diffR forecast)).map (fun d => Real.log (|d| + 1e-10)))

/-- `sentinel_forecast` (models.py:55-83).  Returns `none` when an
uncaught exception aborts the run (ephemeris lookups are the only calls
not guarded by any `try`), otherwise the tuple
`(t, forecast, peaks, alert, lyap)` of models.py:83. -/
noncomputable def sentinel_forecast (ext : Externals) (proxies : List ℚ)
    (geomag_kp schumann_power : ℚ)
    (historical_matches : Option (List HistoricalEvent))
    (domain : Option String) (time_steps : ℕ) (start_date : Option String)
    (ionex_text : Option String) :
    Option (List ℚ × List ℚ × List ℕ × Bool × ℝ) :=
  let t := linspace 0 10 time_steps
  let sd := start_date.getD ext.now
  match compute_tidal_factor ext t sd defaultBodies with
  | none => none
  | some tidal_factors =>
    match detect_alignments ext t sd "moon" defaultPlanets defaultAspects with
    | none => none
    | some alignment_factors =>
      let folded_proxy := np_mean proxies
      let sol := ext.integrate
        (fun y tau => duffing_oscillator ext.sinF y tau 0.80 0.019 0.010 0.05 0.025 folded_proxy)
        (0, 0) t
      let signal0 := sol.map Prod.fst
      let signal1 := zipMul (zipMul (zipMul signal0
        (t.map (fun tau => ext.expF (-0.1 * tau)))) alignment_factors) tidal_factors
      let signal2 :=
        match historical_matches with
        | some hm =>
          if hm.isEmpty then signal1
          else
            let ab := calibrate_resonance ext hm domain
            let amplification := resonance_fit ext folded_proxy ab.1 ab.2
            signal1.map (fun s => s * amplification)
        | none => signal1
      let signal3 := signal2.map (fun s => s * geomag_schumann_mult geomag_kp schumann_power)
      let signal4 := signal3.map (fun s => s * get_goes_flux_factor ext.goesData)
      let signal5 := signal4.map (fun s => s * get_solar_wind_factor ext.windSpeeds)
      let signal6 := signal5.map (fun s => s * get_geomag_storm_factor ext.kpLatest)
      let signal7 := signal6.map (fun s => s * get_solar_flare_factor ext.flareFluxes)
      let signal8 := signal7.map (fun s => s * laic_term ext ionex_text)
      let anomaly_signal := ext.lpf signal8
      let alert := check_critical_triplet anomaly_signal 20
      let forecast := zipMul (cumsum signal8)
        (t.map (fun tau => folded_proxy * ext.expF (0.01 * tau)))
      let peaks := ext.find_peaks_prom forecast 0.5
      some (t, forecast, peaks, alert, lyap (forecast.map (fun q => (q : ℝ))))

/-- The dict returned by `compute_sunwolf` in src/core_sunwolf.py. -/
structure SunwolfResult where
  EII : ℚ
  RPAM : String
  PSI_SCALE : ℚ
deriving DecidableEq

/-- Python `round(x, 3)` on exact values: round half to even at the third
decimal. -/
def round_half_even (x : ℚ) : ℤ :=
  let f := Int.floor x
  if x - f < 1 / 2 then f
  else if 1 / 2 < x - f then f + 1
  else if f % 2 = 0 then f else f + 1

/-- Three-decimal rounding, the `round(·, 3)` of both sunwolf variants. -/
def py_round3 (x : ℚ) : ℚ := (round_half_even (x * 1000) : ℚ) / 1000

/-- The shallow-ratio lambda of src/core_sunwolf.py:4,
`(df['depth'] < 3).mean()`: fraction of depths below 3 km.  Pandas yields
NaN on an empty frame, modelled as `none`. -/
def shallow_ratio (l : List ℚ) : Option ℚ :=
  if l.isEmpty then none
  else some (((l.filter (fun d => decide (d < 3))).length : ℚ) / l.length)

/-- The shallow-ratio lambda of src/supt_dashboard/dashboard_v2.py:37,
identical except that an empty frame yields 0. -/
def shallow_dash (l : List ℚ) : ℚ :=
  if l.isEmpty then 0
  else ((l.filter (fun d => decide (d < 3))).length : ℚ) / l.length

/-- `compute_sunwolf` of src/core_sunwolf.py:3-8 on the depth columns of
the two frames; `none` models the NaN result on an empty frame. -/
def compute_sunwolf_core (cf vulc : List ℚ) (kp_index : ℚ) : Option SunwolfResult :=
  match shallow_ratio cf, shallow_ratio vulc with
  | some a, some b =>
    let eii := 0.5 * (a + b) * (1 + min (kp_index / 7) 0.25)
    some { EII := py_round3 eii,
           RPAM := if 0.55 < eii then "ELEVATED" else "NORMAL",
           PSI_SCALE := py_round3 (1 + min (kp_index / 28) 0.25) }
  | _, _ => none

/-- `compute_sunwolf` of src/supt_dashboard/dashboard_v2.py:35-42 on the
depth columns: same formulas, unrounded EII, 0 substituted for the
shallow ratio of an empty frame. -/
def compute_sunwolf_dash (cf vulc : List ℚ) (kp : ℚ) : ℚ × String × ℚ :=
  let eii := 0.5 * (shallow_dash cf + shallow_dash vulc) * (1 + min (kp / 7) 0.25)
  (eii, if 0.55 < eii then "ELEVATED" else "NORMAL",
   py_round3 (1 + min (kp / 28) 0.25))

/-- A fully benign stub for every collaborator: every lookup succeeds,
every distance is 1, every fetch failed (so every factor is neutral), the
integrator holds the initial state, the filter is the identity. -/
def extOk : Externals where
  lookup := fun _ _ _ => some (0, 0, 0)
  lookupSky := fun _ _ _ => some (0, 0, 0)
  norm := fun _ => 1
  separation := fun _ _ => 0
  integrate := fun _ y0 ts => ts.map (fun _ => y0)
  lpf := fun l => l
  find_peaks_prom := fun _ _ => []
  sinF := fun _ => 0
  expF := fun _ => 1
  now := "2024-01-01"
  goesData := none
  windSpeeds := none
  kpLatest := none
  flareFluxes := none
  tecRaw := fun _ => 1
  nls_fit := fun _ => none

/-- `extOk` except that the position lookup for the moon (alone) fails. -/
def extFailMoon : Externals :=
  { extOk with lookup := fun b _ _ => if b == "moon" then none else some (0, 0, 0) }

/-- `extOk` except that the barycentric lookup for mars (alone) and the
sky lookup for jupiter (alone) fail. -/
def extFailMars : Externals :=
  { extOk with
    lookup := fun b _ _ => if b == "mars" then none else some (0, 0, 0),
    lookupSky := fun p _ _ => if p == "jupiter" then none else some (0, 0, 0) }

/-! ## Helper lemmas -/

theorem mapOpt_none_of_mem {α β : Type} {f : α → Option β} {l : List α} {a : α}
    (ha : a ∈ l) (hfa : f a = none) : mapOpt f l = none := by
  induction l with
  | nil => cases ha
  | cons b l ih =>
    rcases List.mem_cons.mp ha with rfl | hmem
    · simp [mapOpt, hfa]
    · cases hfb : f b
      · simp [mapOpt, hfb]
      · simp [mapOpt, hfb, ih hmem]

theorem mapOpt_length {α β : Type} {f : α → Option β} :
    ∀ {l : List α} {r : List β}, mapOpt f l = some r → r.length = l.length := by
  intro l
  induction l with
  | nil => intro r h; cases h; rfl
  | cons a l ih =>
    intro r h
    cases hfa : f a <;> rw [mapOpt, hfa] at h
    · cases h
    · cases hml : mapOpt f l <;> rw [hml] at h
      · cases h
      · cases h; simp [ih hml]

theorem mapOpt_getD {α β : Type} {f : α → Option β} (d : α) (e : β) :
    ∀ {l : List α} {r : List β}, mapOpt f l = some r →
      ∀ i, i < l.length → f (l.getD i d) = some (r.getD i e) := by
  intro l
  induction l with
  | nil => intro r _ i hi; simp at hi
  | cons a l ih =>
    intro r h i hi
    cases hfa : f a <;> rw [mapOpt, hfa] at h
    · cases h
    · cases hml : mapOpt f l <;> rw [hml] at h
      · cases h
      · cases h
        cases i with
        | zero => simpa using hfa
        | succ i => exact ih hml i (by simpa using hi)

theorem mapOpt_mem_of {α β : Type} {f : α → Option β} :
    ∀ {l : List α} {r : List β}, mapOpt f l = some r →
      ∀ y ∈ r, ∃ a ∈ l, f a = some y := by
  intro l
  induction l with
  | nil => intro r h; cases h; intro y hy; cases hy
  | cons a l ih =>
    intro r h y hy
    cases hfa : f a <;> rw [mapOpt, hfa] at h
    · cases h
    · cases hml : mapOpt f l <;> rw [hml] at h
      · cases h
      · cases h
        rcases List.mem_cons.mp hy with rfl | hmem
        · exact ⟨a, List.mem_cons_self a l, hfa⟩
        · obtain ⟨a2, ha2, hfa2⟩ := ih hml y hmem
          exact ⟨a2, List.mem_cons_of_mem a ha2, hfa2⟩

theorem mapOpt_mem_to {α β : Type} {f : α → Option β} :
    ∀ {l : List α} {r : List β}, mapOpt f l = some r →
      ∀ a ∈ l, ∃ y ∈ r, f a = some y := by
  intro l
  induction l with
  | nil => intro r _ a ha; cases ha
  | cons b l ih =>
    intro r h a ha
    cases hfb : f b <;> rw [mapOpt, hfb] at h
    · cases h
    · cases hml : mapOpt f l <;> rw [hml] at h
      · cases h
      · cases h
        rcases List.mem_cons.mp ha with rfl | hmem
        · exact ⟨_, List.mem_cons_self _ _, hfb⟩
        · obtain ⟨y, hy, hfy⟩ := ih hml a hmem
          exact ⟨y, List.mem_cons_of_mem _ hy, hfy⟩

theorem clamp_bounds (x : ℚ) : 1 ≤ max 1 (min 2 x) ∧ max 1 (min 2 x) ≤ 2 :=
  ⟨le_max_left _ _, max_le (by norm_num) (min_le_left _ _)⟩

theorem sum_pos_iff_of_nonneg {l : List ℚ} (h : ∀ x ∈ l, 0 ≤ x) :
    0 < l.sum ↔ ∃ x ∈ l, 0 < x := by
  induction l with
  | nil => simp
  | cons a l ih =>
    have ha : 0 ≤ a := h a (List.mem_cons_self _ _)
    have hl : ∀ x ∈ l, 0 ≤ x := fun x hx => h x (List.mem_cons_of_mem _ hx)
    have hsum : 0 ≤ l.sum := List.sum_nonneg hl
    simp only [List.sum_cons, List.mem_cons]
    constructor
    · intro hpos
      by_cases hA : 0 < a
      · exact ⟨a, Or.inl rfl, hA⟩
      · have : 0 < l.sum := by linarith [le_antisymm (not_lt.mp hA) ha]
        obtain ⟨x, hx, hxp⟩ := (ih hl).mp this
        exact ⟨x, Or.inr hx, hxp⟩
    · rintro ⟨x, rfl | hx, hxp⟩
      · linarith
      · have : 0 < l.sum := (ih hl).mpr ⟨x, hx, hxp⟩
        linarith

theorem find_peaks_pairwise (x : List ℚ) : (find_peaks x).Pairwise (· < ·) :=
  List.Pairwise.filter _ (List.pairwise_lt_range _)

/-! ## Claim theorems -/

/-- C2: with the ephemeris, indicator payloads, clock and every other
collaborator fixed in `ext`, two calls to `sentinel_forecast` with
identical inputs (same ProxyVector, historicalEvents, startDate, domain,
geomagnetic and Schumann parameters, grid size and TEC text) return
identical ForecastResult tuples: the core computation is a pure function
with no hidden nondeterminism. -/
theorem sentinel_forecast_deterministic (ext : Externals)
    (p₁ p₂ : List ℚ) (g₁ g₂ s₁ s₂ : ℚ)
    (h₁ h₂ : Option (List HistoricalEvent)) (d₁ d₂ : Option String)
    (n₁ n₂ : ℕ) (sd₁ sd₂ ix₁ ix₂ : Option String)
    (hp : p₁ = p₂) (hg : g₁ = g₂) (hs : s₁ = s₂) (hh : h₁ = h₂)
    (hd : d₁ = d₂) (hn : n₁ = n₂) (hsd : sd₁ = sd₂) (hix : ix₁ = ix₂) :
    sentinel_forecast ext p₁ g₁ s₁ h₁ d₁ n₁ sd₁ ix₁ =
    sentinel_forecast ext p₂ g₂ s₂ h₂ d₂ n₂ sd₂ ix₂ := by
  subst hp hg hs hh hd hn hsd hix; rfl

/-- Witness for C2 at a concrete input. -/
theorem sentinel_forecast_deterministic_witness :
    (([0.5] : List ℚ) = [0.5]) ∧
    sentinel_forecast extOk [0.5] 0 20 none none 2 (some "2024-01-01") none =
    sentinel_forecast extOk [0.5] 0 20 none none 2 (some "2024-01-01") none :=
  ⟨rfl, sentinel_forecast_deterministic extOk [0.5] [0.5] 0 0 20 20 none none
    none none 2 2 (some "2024-01-01") (some "2024-01-01") none none
    rfl rfl rfl rfl rfl rfl rfl rfl⟩

/-- C6 (amended): each of the four fetch-derived indicator factors of
data_fetch.py lies in [1.0, 2.0] and is exactly 1.0 when its data is
unavailable, the (spec-modelled) TEC factor lies in [1.0, 2.0] and
contributes exactly 1.0 when `ionex_text` is absent, and they are
multiplied into the signal one at a time; but the geomagnetic-Kp and
Schumann terms are NOT separate multiplicative factors in [1.0, 2.0]:
models.py:72 multiplies the single additive combination
`1 + geomag_factor + schumann_factor`, which always exceeds 2. -/
theorem indicator_factor_bounds :
    (∀ gd : Option (List ℚ × ℚ),
      1 ≤ get_goes_flux_factor gd ∧ get_goes_flux_factor gd ≤ 2) ∧
    (∀ wd : Option (List ℚ),
      1 ≤ get_solar_wind_factor wd ∧ get_solar_wind_factor wd ≤ 2) ∧
    (∀ kd : Option ℚ,
      1 ≤ get_geomag_storm_factor kd ∧ get_geomag_storm_factor kd ≤ 2) ∧
    (∀ fd : Option (List ℚ),
      1 ≤ get_solar_flare_factor fd ∧ get_solar_flare_factor fd ≤ 2) ∧
    get_goes_flux_factor none = 1 ∧ get_solar_wind_factor none = 1 ∧
    get_geomag_storm_factor none = 1 ∧ get_solar_flare_factor none = 1 ∧
    (∀ ext : Externals, laic_term ext none = 1) ∧
    (∀ (ext : Externals) (s : String),
      1 ≤ laic_term ext (some s) ∧ laic_term ext (some s) ≤ 2) ∧
    (∀ kp p : ℚ, 2 < geomag_schumann_mult kp p) := by
  refine ⟨?_, ?_, ?_, ?_, rfl, rfl, rfl, rfl, fun _ => rfl, ?_, ?_⟩
  · rintro (_ | ⟨fl, sl⟩)
    · norm_num [get_goes_flux_factor]
    · exact clamp_bounds _
  · rintro (_ | speeds)
    · norm_num [get_solar_wind_factor]
    · simp only [get_solar_wind_factor]
      split
      · norm_num
      · exact clamp_bounds _
  · rintro (_ | kp)
    · norm_num [get_geomag_storm_factor]
    · exact clamp_bounds _
  · rintro (_ | fluxes)
    · norm_num [get_solar_flare_factor]
    · simp only [get_solar_flare_factor]
      split
      · norm_num
      · split_ifs <;> norm_num
  · intro ext s
    exact clamp_bounds _
  · intro kp p
    have hs := le_max_left (1 : ℚ) (min 2 (p / 20))
    simp only [geomag_schumann_mult]
    split
    · rename_i hkp
      have : 0 < kp / 9 := by positivity
      linarith
    · linarith

/-- Counterexample for C6 as stated: at the default inputs
(`geomag_kp = 0`, `schumann_power = 20`) the scalar that models.py:72
multiplies into the signal is 3, outside [1.0, 2.0]. -/
theorem geomag_schumann_mult_cex :
    geomag_schumann_mult 0 20 = 3 ∧
    ¬(1 ≤ geomag_schumann_mult 0 20 ∧ geomag_schumann_mult 0 20 ≤ 2) := by
  constructor
  · norm_num [geomag_schumann_mult]
  · norm_num [geomag_schumann_mult]

/-- C5: `check_critical_triplet` returns true iff the series has at least
3 (strict interior) local maxima and the 3rd-earliest peak index minus the
1st peak index is at most the window (default 20); on a synthetic series
with peaks at {5, 10, 15} it returns true, with peaks at {5, 10, 40}
false. -/
theorem check_critical_triplet_iff :
    (∀ signal : List ℚ, check_critical_triplet signal 20 = true ↔
      ∃ a b c rest, find_peaks signal = a :: b :: c :: rest ∧ c - a ≤ 20) ∧
    check_critical_triplet (mkSignal 21 [5, 10, 15]) 20 = true ∧
    check_critical_triplet (mkSignal 45 [5, 10, 40]) 20 = false := by
  refine ⟨fun signal => ?_, by decide, by decide⟩
  rcases hp : find_peaks signal with _ | ⟨a, _ | ⟨b, _ | ⟨c, rest⟩⟩⟩
  · simp [check_critical_triplet, hp]
  · simp [check_critical_triplet, hp]
  · simp [check_critical_triplet, hp]
  · have hpw := find_peaks_pairwise signal
    rw [hp] at hpw
    obtain ⟨ha, hpw2⟩ := List.pairwise_cons.mp hpw
    obtain ⟨hb, -⟩ := List.pairwise_cons.mp hpw2
    have hab : a < b := ha b (List.mem_cons_self _ _)
    have hac : a < c := ha c (List.mem_cons_of_mem _ (List.mem_cons_self _ _))
    have hbc : b < c := hb c (List.mem_cons_self _ _)
    have hmax : max a (max b c) = c := by
      rw [max_eq_right hbc.le, max_eq_right hac.le]
    have hmin : min a (min b c) = a := min_eq_left (le_min hab.le hac.le)
    simp only [check_critical_triplet, hp, hmax, hmin, decide_eq_true_eq]
    constructor
    · intro h
      exact ⟨a, b, c, rest, rfl, h⟩
    · rintro ⟨a2, b2, c2, rest2, heq, hle⟩
      obtain ⟨rfl, rfl, rfl, rfl⟩ := by simpa using heq
      exact hle

theorem round_half_even_close (x : ℚ) : |(round_half_even x : ℚ) - x| ≤ 1 / 2 := by
  have h1 : (Int.floor x : ℚ) ≤ x := Int.floor_le x
  have h2 : x < (Int.floor x : ℚ) + 1 := Int.lt_floor_add_one x
  simp only [round_half_even]
  split_ifs <;> push_cast <;> rw [abs_le] <;> constructor <;> linarith

theorem py_round3_close (x : ℚ) : |py_round3 x - x| ≤ 1 / 2000 := by
  have h := round_half_even_close (x * 1000)
  have heq : py_round3 x - x = ((round_half_even (x * 1000) : ℚ) - x * 1000) / 1000 := by
    simp only [py_round3]; ring
  rw [heq, abs_div, abs_of_pos (by norm_num : (0:ℚ) < 1000)]
  rw [show (1:ℚ) / 2000 = (1 / 2) / 1000 by norm_num]
  exact (div_le_div_iff_of_pos_right (by norm_num)).mpr h

theorem shallow_ratio_eq_dash (l : List ℚ) (h : l ≠ []) :
    shallow_ratio l = some (shallow_dash l) := by
  simp [shallow_ratio, shallow_dash, h]

/-- C10: on tables that each hold at least one numeric depth row, the two
`compute_sunwolf` implementations agree: same RPAM label ("ELEVATED" iff
the unrounded EII exceeds 0.55), same PSI scale `round(1 + min(kp/28,
0.25), 3)`, and EII values equal up to the 3-decimal rounding that only
the core_sunwolf variant applies; on an empty table the core variant's
shallow ratio is NaN (modelled `none`) while the dashboard variant
substitutes 0. -/
theorem compute_sunwolf_agree (cf vulc : List ℚ) (kp : ℚ)
    (hcf : cf ≠ []) (hv : vulc ≠ []) :
    ∃ e r p, compute_sunwolf_dash cf vulc kp = (e, r, p) ∧
      compute_sunwolf_core cf vulc kp =
        some { EII := py_round3 e, RPAM := r, PSI_SCALE := p } ∧
      |py_round3 e - e| ≤ 1 / 2000 ∧
      (r = "ELEVATED" ↔ 0.55 < e) ∧
      compute_sunwolf_core [] vulc kp = none ∧
      shallow_dash [] = 0 := by
  refine ⟨_, _, _, rfl, ?_, py_round3_close _, ?_, ?_, rfl⟩
  · simp [compute_sunwolf_core, compute_sunwolf_dash,
      shallow_ratio_eq_dash _ hcf, shallow_ratio_eq_dash _ hv]
  · split_ifs with h
    · simpa using h
    · exact iff_of_false (by decide) h
  · simp [compute_sunwolf_core, shallow_ratio]

/-- Witness for C10 at concrete depth tables. -/
theorem compute_sunwolf_agree_witness :
    ([1] : List ℚ) ≠ [] ∧ ([5] : List ℚ) ≠ [] ∧
    (∃ e r p, compute_sunwolf_dash [1] [5] 0 = (e, r, p) ∧
      compute_sunwolf_core [1] [5] 0 =
        some { EII := py_round3 e, RPAM := r, PSI_SCALE := p } ∧
      |py_round3 e - e| ≤ 1 / 2000 ∧
      (r = "ELEVATED" ↔ 0.55 < e) ∧
      compute_sunwolf_core [] [5] 0 = none ∧
      shallow_dash [] = 0) :=
  ⟨by decide, by decide, compute_sunwolf_agree [1] [5] 0 (by decide) (by decide)⟩

theorem bodyMass_pos (b : String) (M : ℚ) (h : bodyMass b = some M) : 0 < M := by
  unfold bodyMass at h
  split_ifs at h <;> cases h <;> norm_num

theorem tidal_term_spec (ext : Externals) (hnorm : ∀ v, 0 < ext.norm v)
    (earth : ℚ × ℚ × ℚ) (sd : String) (day : ℚ) (b : String) (w : ℚ)
    (h : tidal_term ext earth sd day b = some w) :
    0 ≤ w ∧ (0 < w ↔ (bodyMass b).isSome) := by
  unfold tidal_term at h
  cases hl : ext.lookup b sd day <;> rw [hl] at h
  · cases h
  · rename_i pos
    cases hm : bodyMass b <;> rw [hm] at h <;> cases h
    · simp [hm]
    · rename_i M
      have hM := bodyMass_pos b M hm
      have hG : (0:ℚ) < Gconst := by norm_num [Gconst]
      have hR : (0:ℚ) < R_earth := by norm_num [R_earth]
      have hd := hnorm (psub pos earth)
      have hw : 0 < 2 * Gconst * M * R_earth / (ext.norm (psub pos earth)) ^ 3 :=
        div_pos (by positivity) (pow_pos hd 3)
      exact ⟨hw.le, by simp [hm, hw]⟩

theorem tidal_sum_spec (ext : Externals) (hnorm : ∀ v, 0 < ext.norm v)
    (sd : String) (bodies : List String) (day : ℚ) (v : ℚ)
    (h : tidal_sum_at ext sd bodies day = some v) :
    0 ≤ v ∧ (0 < v ↔ ∃ b ∈ bodies, (bodyMass b).isSome) := by
  unfold tidal_sum_at at h
  cases he : ext.lookup "earth" sd day
  case none => simp [he] at h
  case some earth =>
    simp only [he] at h
    cases hm : mapOpt (tidal_term ext earth sd day) bodies
    case none => simp [hm] at h
    case some terms =>
      simp only [hm] at h
      cases h
      have hnn : ∀ x ∈ terms, 0 ≤ x := by
        intro x hx
        obtain ⟨a, _, hfa⟩ := mapOpt_mem_of hm x hx
        exact (tidal_term_spec ext hnorm earth sd day a x hfa).1
      refine ⟨List.sum_nonneg hnn, ?_⟩
      rw [sum_pos_iff_of_nonneg hnn]
      constructor
      · rintro ⟨x, hx, hxp⟩
        obtain ⟨a, ha, hfa⟩ := mapOpt_mem_of hm x hx
        exact ⟨a, ha, (tidal_term_spec ext hnorm earth sd day a x hfa).2.mp hxp⟩
      · rintro ⟨b, hb, hbs⟩
        obtain ⟨y, hy, hfy⟩ := mapOpt_mem_to hm b hb
        exact ⟨y, hy, (tidal_term_spec ext hnorm earth sd day b y hfy).2.mpr hbs⟩

/-- C7: whenever `compute_tidal_factor` returns a series (all positions
resolved, positive distances), each sample is the per-sample body sum
normalized by the fixed scale 1e-6 when that sum is positive, and is
exactly 1.0 when that sum is degenerate (≤ 0), the other samples keeping
their normalized values. -/
theorem compute_tidal_factor_degenerate (ext : Externals) (t_days : List ℚ)
    (sd : String) (bodies : List String) (tv : List ℚ)
    (hnorm : ∀ v, 0 < ext.norm v)
    (h : compute_tidal_factor ext t_days sd bodies = some tv) :
    tv.length = t_days.length ∧
    ∀ i, i < t_days.length → ∀ v,
      tidal_sum_at ext sd bodies (t_days.getD i 0) = some v →
      (v ≤ 0 → tv.getD i 0 = 1) ∧ (0 < v → tv.getD i 0 = v / 1e-6) := by
  unfold compute_tidal_factor at h
  cases hm : mapOpt (tidal_sum_at ext sd bodies) t_days
  case none => simp [hm] at h
  case some vals =>
    simp only [hm] at h
    cases hmax : vals.max?
    case none => simp [hmax] at h
    case some m =>
      simp only [hmax] at h
      cases h
      have hlen := mapOpt_length hm
      have hget := mapOpt_getD (0 : ℚ) (0 : ℚ) hm
      have hmaxmem : m ∈ vals := List.max?_mem max_choice hmax
      have hub : ∀ b ∈ vals, b ≤ m := by
        haveI : Std.Antisymm (fun x1 x2 : ℚ => x1 ≤ x2) :=
          ⟨fun h1 h2 => le_antisymm h1 h2⟩
        have := (List.max?_eq_some_iff (fun a => le_refl a) max_choice
          (fun _ _ _ => max_le_iff)).mp hmax
        exact this.2
      constructor
      · split_ifs <;> simp [hlen]
      · intro i hi v hv
        have hvi := hget i hi
        have hveq : vals.getD i 0 = v := by
          rw [hv] at hvi
          exact (Option.some.inj hvi).symm
        have hilen : i < vals.length := by rw [hlen]; exact hi
        split_ifs with hpos
        · -- max positive: every sample's sum is positive
          obtain ⟨dm, hdm, hfm⟩ := mapOpt_mem_of hm m hmaxmem
          have hrec := (tidal_sum_spec ext hnorm sd bodies dm m hfm).2.mp hpos
          have hvpos : 0 < v :=
            (tidal_sum_spec ext hnorm sd bodies _ v hv).2.mpr hrec
          constructor
          · intro hle; linarith
          · intro _
            rw [List.getD_eq_getElem _ _ (by simpa using hilen),
              List.getElem_map, ← List.getD_eq_getElem _ (0 : ℚ) hilen, hveq]
        · -- max nonpositive: the whole series is ones
          have hone : (List.replicate t_days.length (1 : ℚ)).getD i 0 = 1 := by
            rw [List.getD_eq_getElem _ _ (by simpa using hi),
              List.getElem_replicate]
          refine ⟨fun _ => hone, fun hvp => ?_⟩
          have : vals.getD i 0 ∈ vals := by
            rw [List.getD_eq_getElem _ _ hilen]
            exact List.getElem_mem hilen
          have := hub _ this
          rw [hveq] at this
          exact absurd (lt_of_lt_of_le hvp this) hpos

/-- Witness for C7: one sample, only the unrecognized body "sun", so the
sample sum is degenerate (0) and the returned series is [1]. -/
theorem compute_tidal_factor_degenerate_witness :
    (∀ v, 0 < extOk.norm v) ∧
    compute_tidal_factor extOk [0] "2024-01-01" ["sun"] = some [1] ∧
    (([1] : List ℚ).length = ([0] : List ℚ).length ∧
      ∀ i, i < ([0] : List ℚ).length → ∀ v,
        tidal_sum_at extOk "2024-01-01" ["sun"] (([0] : List ℚ).getD i 0) = some v →
        (v ≤ 0 → ([1] : List ℚ).getD i 0 = 1) ∧
        (0 < v → ([1] : List ℚ).getD i 0 = v / 1e-6)) :=
  ⟨fun _ => by norm_num [extOk],
    by simp [compute_tidal_factor, tidal_sum_at, tidal_term, mapOpt, extOk, bodyMass],
    compute_tidal_factor_degenerate extOk [0] "2024-01-01" ["sun"] [1]
      (fun _ => by norm_num [extOk])
      (by simp [compute_tidal_factor, tidal_sum_at, tidal_term, mapOpt, extOk, bodyMass])⟩

/-- C8 (amended): in models.py no ephemeris call is guarded by `try`, so a
position-lookup failure for a single body does not exclude just that
body's contribution — it aborts the entire tidal computation, the entire
alignment computation, and with it the whole `sentinel_forecast` run. -/
theorem lookup_failure_aborts (ext : Externals) (t_days : List ℚ)
    (sd : String) (b : String) (day : ℚ)
    (hb : b ∈ defaultBodies) (hd : day ∈ t_days)
    (hfail : ext.lookup b sd day = none)
    (p : String) (hp : p ∈ defaultPlanets)
    (hfail2 : ext.lookupSky p sd day = none) :
    compute_tidal_factor ext t_days sd defaultBodies = none ∧
    detect_alignments ext t_days sd "moon" defaultPlanets defaultAspects = none ∧
    ∀ (proxies : List ℚ) (gk sp : ℚ) (hm : Option (List HistoricalEvent))
      (dom : Option String) (n : ℕ) (sdo ix : Option String),
      linspace 0 10 n = t_days → sdo.getD ext.now = sd →
      sentinel_forecast ext proxies gk sp hm dom n sdo ix = none := by
  have hts : tidal_sum_at ext sd defaultBodies day = none := by
    cases he : ext.lookup "earth" sd day
    case none => simp [tidal_sum_at, he]
    case some earth =>
      have hterm : tidal_term ext earth sd day b = none := by
        unfold tidal_term; rw [hfail]
      simp only [tidal_sum_at, he]
      rw [mapOpt_none_of_mem hb hterm]
  have h1 : compute_tidal_factor ext t_days sd defaultBodies = none := by
    unfold compute_tidal_factor
    rw [mapOpt_none_of_mem hd hts]
  have h2 : detect_alignments ext t_days sd "moon" defaultPlanets
      defaultAspects = none := by
    unfold detect_alignments
    apply mapOpt_none_of_mem hd
    cases hbase : ext.lookupSky "moon" sd day
    case none => simp [hbase]
    case some base =>
      have hpb : planet_boost ext base sd day defaultAspects p = none := by
        unfold planet_boost; rw [hfail2]
      simp only [hbase]
      rw [mapOpt_none_of_mem hp hpb]
  refine ⟨h1, h2, ?_⟩
  intro proxies gk sp hm dom n sdo ix hlin hsd
  simp only [sentinel_forecast]
  rw [hlin, hsd, h1]

/-- Counterexample for C8 as stated: with only the barycentric lookup for
mars and the sky lookup for jupiter failing (all other lookups
succeeding), both ephemeris computations fail whole. -/
theorem lookup_failure_aborts_cex :
    extFailMars.lookup "mars" "2024-01-01" 0 = none ∧
    extFailMars.lookup "moon" "2024-01-01" 0 = some (0, 0, 0) ∧
    extFailMars.lookup "earth" "2024-01-01" 0 = some (0, 0, 0) ∧
    compute_tidal_factor extFailMars [0] "2024-01-01" defaultBodies = none ∧
    extFailMars.lookupSky "jupiter" "2024-01-01" 0 = none ∧
    extFailMars.lookupSky "moon" "2024-01-01" 0 = some (0, 0, 0) ∧
    detect_alignments extFailMars [0] "2024-01-01" "moon" defaultPlanets
      defaultAspects = none :=
  ⟨rfl, rfl, rfl, rfl, rfl, rfl, rfl⟩

/-- Witness for the amended C8 at a concrete failing lookup. -/
theorem lookup_failure_aborts_witness :
    ("mars" ∈ defaultBodies) ∧ ((0 : ℚ) ∈ linspace 0 10 1) ∧
    extFailMars.lookup "mars" "2024-01-01" 0 = none ∧
    ("jupiter" ∈ defaultPlanets) ∧
    extFailMars.lookupSky "jupiter" "2024-01-01" 0 = none ∧
    (compute_tidal_factor extFailMars (linspace 0 10 1) "2024-01-01"
        defaultBodies = none ∧
      detect_alignments extFailMars (linspace 0 10 1) "2024-01-01" "moon"
        defaultPlanets defaultAspects = none ∧
      ∀ (proxies : List ℚ) (gk sp : ℚ) (hm : Option (List HistoricalEvent))
        (dom : Option String) (n : ℕ) (sdo ix : Option String),
        linspace 0 10 n = linspace 0 10 1 →
        sdo.getD extFailMars.now = "2024-01-01" →
        sentinel_forecast extFailMars proxies gk sp hm dom n sdo ix = none) :=
  ⟨by decide, by decide, rfl, by decide, rfl,
    lookup_failure_aborts extFailMars (linspace 0 10 1) "2024-01-01" "mars" 0
      (by decide) (by decide) rfl "jupiter" (by decide) rfl⟩

/-- Counterexample for C1 as stated: a single failed ephemeris lookup
(for the moon alone; every other lookup succeeds) is an error the spec
classifies as non-fatal, yet it aborts the whole `sentinel_forecast` call:
no result tuple is produced at all, and a fortiori nothing is recorded in
any diagnostics field (the returned tuple type has none). -/
theorem sentinel_forecast_aborts_cex :
    extFailMoon.lookup "moon" "2024-01-01" 0 = none ∧
    extFailMoon.lookup "earth" "2024-01-01" 0 = some (0, 0, 0) ∧
    sentinel_forecast extFailMoon [0.5] 0 20 none none 1 (some "2024-01-01")
      none = none :=
  ⟨rfl, rfl, rfl⟩

/-- C1 (amended): indicator fetch failures and missing calibration data
never interrupt a run — every fetch factor degrades to a neutral value
regardless of its payload — but ephemeris lookups are the one
un-guarded failure source: whenever the tidal and alignment computations
both succeed, `sentinel_forecast` returns a result, for every combination
of fetch payloads (including all-failed); the returned tuple
`(t, forecast, peaks, alert, lyap)` carries no diagnostics field. -/
theorem sentinel_forecast_completes (ext : Externals) (proxies : List ℚ)
    (gk sp : ℚ) (hm : Option (List HistoricalEvent)) (dom : Option String)
    (n : ℕ) (sdo ix : Option String)
    (h1 : (compute_tidal_factor ext (linspace 0 10 n) (sdo.getD ext.now)
      defaultBodies).isSome = true)
    (h2 : (detect_alignments ext (linspace 0 10 n) (sdo.getD ext.now) "moon"
      defaultPlanets defaultAspects).isSome = true) :
    (sentinel_forecast ext proxies gk sp hm dom n sdo ix).isSome = true := by
  obtain ⟨tv, htv⟩ := Option.isSome_iff_exists.mp h1
  obtain ⟨av, hav⟩ := Option.isSome_iff_exists.mp h2
  simp only [sentinel_forecast, htv, hav]
  rfl

/-- Witness for the amended C1: with every lookup succeeding and every
fetch payload failed, the run completes. -/
theorem sentinel_forecast_completes_witness :
    (compute_tidal_factor extOk (linspace 0 10 1)
      ((some "2024-01-01" : Option String).getD extOk.now)
      defaultBodies).isSome = true ∧
    (detect_alignments extOk (linspace 0 10 1)
      ((some "2024-01-01" : Option String).getD extOk.now) "moon"
      defaultPlanets defaultAspects).isSome = true ∧
    (sentinel_forecast extOk [0.5] 3 25 none none 1 (some "2024-01-01")
      none).isSome = true :=
  ⟨rfl, rfl, sentinel_forecast_completes extOk [0.5] 3 25 none none 1
    (some "2024-01-01") none rfl rfl⟩

theorem duffing_zero (sinF : ℚ → ℚ) (t gamma alpha beta tau omega : ℚ) :
    duffing_oscillator sinF (0, 0) t gamma alpha beta tau omega 0 = (0, 0) := by
  simp [duffing_oscillator]

theorem rk4_step_zero (f : (ℚ × ℚ) → ℚ → (ℚ × ℚ))
    (hf : ∀ t, f (0, 0) t = (0, 0)) (t h : ℚ) :
    rk4_step f (0, 0) t h = (0, 0) := by
  simp only [rk4_step]
  simp only [hf, psmul, padd, mul_zero, add_zero, zero_add]

theorem odeint_go_zero (f : (ℚ × ℚ) → ℚ → (ℚ × ℚ))
    (hf : ∀ t, f (0, 0) t = (0, 0)) :
    ∀ (rest : List ℚ) (t : ℚ),
      odeint_go f (0, 0) t rest = List.replicate rest.length (0, 0) := by
  intro rest
  induction rest with
  | nil => intro t; rfl
  | cons t2 rest ih =>
    intro t
    simp only [odeint_go, rk4_step_zero f hf t (t2 - t), List.length_cons,
      List.replicate_succ, ih t2]

theorem getD_replicate_self {α : Type} (a : α) (n k : ℕ) :
    (List.replicate n a).getD k a = a := by
  induction n generalizing k with
  | zero => cases k <;> rfl
  | succ n ih => cases k with
    | zero => rfl
    | succ k =>
      simp only [List.replicate_succ, List.getD_cons_succ]
      exact ih k

/-- C9: with zero folded proxy the forcing term of the Duffing oscillator
vanishes and the origin is an equilibrium, so the simulated displacement
from initial state (0,0) is identically 0 on every grid: its magnitude is
(weakly) non-increasing over the whole horizon — pure damped decay of the
unforced system — for all damping/stiffness parameters and any external
`sin` routine. -/
theorem oscillator_unforced_decay (sinF : ℚ → ℚ)
    (gamma alpha beta tau omega : ℚ) (ts : List ℚ) (i j : ℕ) (hij : i ≤ j) :
    |((odeint_rk4 (fun y t =>
        duffing_oscillator sinF y t gamma alpha beta tau omega 0)
        (0, 0) ts).map Prod.fst).getD j 0| ≤
    |((odeint_rk4 (fun y t =>
        duffing_oscillator sinF y t gamma alpha beta tau omega 0)
        (0, 0) ts).map Prod.fst).getD i 0| := by
  have hf : ∀ t, duffing_oscillator sinF ((0 : ℚ), (0 : ℚ)) t
      gamma alpha beta tau omega 0 = (0, 0) := fun t => duffing_zero _ _ _ _ _ _ _
  have hall : ∀ k, ((odeint_rk4 (fun y t =>
      duffing_oscillator sinF y t gamma alpha beta tau omega 0)
      (0, 0) ts).map Prod.fst).getD k 0 = 0 := by
    intro k
    cases ts with
    | nil => cases k <;> rfl
    | cons t0 rest =>
      have hlist : ((odeint_rk4 (fun y t =>
          duffing_oscillator sinF y t gamma alpha beta tau omega 0)
          (0, 0) (t0 :: rest)).map Prod.fst) =
          (0 : ℚ) :: List.replicate rest.length 0 := by
        show (((0, 0) :: odeint_go (fun y t =>
          duffing_oscillator sinF y t gamma alpha beta tau omega 0)
          (0, 0) t0 rest).map Prod.fst) = (0 : ℚ) :: List.replicate rest.length 0
        rw [odeint_go_zero (fun y t =>
          duffing_oscillator sinF y t gamma alpha beta tau omega 0) hf rest t0]
        simp [List.map_replicate]
      rw [hlist]
      cases k with
      | zero => rfl
      | succ k =>
        simp only [List.getD_cons_succ]
        exact getD_replicate_self (0 : ℚ) rest.length k
  rw [hall i, hall j]

/-- Witness for C9 on a concrete grid with the defaults of models.py:61. -/
theorem oscillator_unforced_decay_witness :
    0 ≤ 2 ∧
    |((odeint_rk4 (fun y t =>
        duffing_oscillator (fun q => q) y t 0.80 0.019 0.010 0.05 0.025 0)
        (0, 0) (linspace 0 10 5)).map Prod.fst).getD 2 0| ≤
    |((odeint_rk4 (fun y t =>
        duffing_oscillator (fun q => q) y t 0.80 0.019 0.010 0.05 0.025 0)
        (0, 0) (linspace 0 10 5)).map Prod.fst).getD 0 0| :=
  ⟨by decide,
    oscillator_unforced_decay (fun q => q) 0.80 0.019 0.010 0.05 0.025
      (linspace 0 10 5) 0 2 (by decide)⟩

theorem np_diffR_length (xs : List ℝ) : (np_diffR xs).length = xs.length - 1 := by
  simp [np_diffR, List.length_zipWith, List.length_tail]

theorem np_diffR_sum : ∀ (xs : List ℝ), xs ≠ [] →
    (np_diffR xs).sum = xs.getLast?.getD 0 - xs.head?.getD 0 := by
  intro xs
  induction xs with
  | nil => intro h; exact absurd rfl h
  | cons a t ih =>
    intro _
    cases t with
    | nil => simp [np_diffR]
    | cons b t2 =>
      have hstep : np_diffR (a :: b :: t2) = (b - a) :: np_diffR (b :: t2) := rfl
      rw [hstep, List.sum_cons, ih (by simp), List.getLast?_cons_cons]
      have hbt : (b :: t2).head?.getD 0 = b := rfl
      have hat : (a :: b :: t2).head?.getD 0 = a := rfl
      rw [hbt, hat]
      ring

/-- C4 (amended): the Lyapunov line of models.py:82 adds the epsilon
1e-10 to the FIRST difference of the forecast (before the absolute
value), takes logs, and averages the differences of those logs — so for a
forecast of length n ≥ 3 it telescopes to
`(log|Δf_last + ε| − log|Δf_first + ε|) / (n − 2)`, not the spec's mean of
`log(|ΔΔf| + ε)`. -/
theorem lyap_first_diff_telescopes (f : List ℝ) (h : 3 ≤ f.length) :
    lyap f = (Real.log |(np_diffR f).getLastD 0 + 1e-10| -
              Real.log |(np_diffR f).headD 0 + 1e-10|) / ((f.length : ℝ) - 2) := by
  have hds_len : (np_diffR f).length = f.length - 1 := np_diffR_length f
  have hds_ne : np_diffR f ≠ [] :=
    List.ne_nil_of_length_pos (by rw [hds_len]; omega)
  have hls_ne : (np_diffR f).map (fun d => Real.log |d + 1e-10|) ≠ [] := by
    rw [Ne, List.map_eq_nil_iff]; exact hds_ne
  have hsum := np_diffR_sum _ hls_ne
  have hlL : (np_diffR ((np_diffR f).map (fun d => Real.log |d + 1e-10|))).length
      = f.length - 2 := by
    rw [np_diffR_length, List.length_map, hds_len]
    omega
  unfold lyap meanR
  rw [hsum, hlL]
  obtain ⟨x, hx⟩ := Option.isSome_iff_exists.mp (List.getLast?_isSome.mpr hds_ne)
  obtain ⟨y, hy⟩ := Option.isSome_iff_exists.mp (List.head?_isSome.mpr hds_ne)
  rw [List.getLast?_map, List.head?_map, hx, hy, List.getLastD_eq_getLast?,
    List.headD_eq_head?, hx, hy, Nat.cast_sub (by omega : 2 ≤ f.length)]
  norm_num

/-- Witness for the amended C4 at the concrete forecast [0, 1, 3]. -/
theorem lyap_first_diff_telescopes_witness :
    3 ≤ ([0, 1, 3] : List ℝ).length ∧
    lyap [0, 1, 3] =
      (Real.log |(np_diffR [0, 1, 3]).getLastD 0 + 1e-10| -
       Real.log |(np_diffR [0, 1, 3]).headD 0 + 1e-10|) /
      ((([0, 1, 3] : List ℝ).length : ℝ) - 2) :=
  ⟨by norm_num, lyap_first_diff_telescopes [0, 1, 3] (by norm_num)⟩

/-- Counterexample for C4 as stated: on the forecast curve [0, 1, 3] the
value computed by models.py:82 differs from the spec's
`mean(log(|Δ(Δforecast)| + ε))` — the code yields
`log(2 + ε) − log(1 + ε)` while the claimed formula yields `log(1 + ε)`,
and these are provably different real numbers. -/
theorem lyap_formula_cex : lyap [0, 1, 3] ≠ lyap_claimed [0, 1, 3] := by
  have h1 : np_diffR [(0:ℝ), 1, 3] = [1, 2] := by
    simp [np_diffR]; norm_num
  have e1 : lyap [0, 1, 3] = Real.log (2 + 1e-10) - Real.log (1 + 1e-10) := by
    unfold lyap
    rw [h1]
    have h2 : ([(1:ℝ), 2]).map (fun d => Real.log |d + 1e-10|) =
        [Real.log (1 + 1e-10), Real.log (2 + 1e-10)] := by
      simp [abs_of_pos]
    rw [h2]
    have h3 : np_diffR [Real.log (1 + 1e-10), Real.log (2 + 1e-10)] =
        [Real.log (2 + 1e-10) - Real.log (1 + 1e-10)] := rfl
    rw [h3]
    simp [meanR]
  have e2 : lyap_claimed [0, 1, 3] = Real.log (1 + 1e-10) := by
    unfold lyap_claimed
    rw [h1]
    have h4 : np_diffR [(1:ℝ), 2] = [1] := by
      simp [np_diffR]; norm_num
    rw [h4]
    simp [meanR]
  rw [e1, e2]
  intro hEq
  have hx : (0:ℝ) < 1 + 1e-10 := by norm_num
  have hy : (0:ℝ) < 2 + 1e-10 := by norm_num
  have h2 : Real.log (2 + 1e-10) = Real.log ((1 + 1e-10) * (1 + 1e-10)) := by
    rw [Real.log_mul hx.ne' hx.ne']
    linarith
  have := Real.log_injOn_pos (Set.mem_Ioi.mpr hy)
    (Set.mem_Ioi.mpr (by positivity)) h2
  norm_num at this
